import Mathlib

/-!
Shallow embedding of the XR swapchain lifecycle core of `bevy_oxr`
(`src/resources.rs`): the `SwapchainInner` store, its frame lifecycle
operations (`begin`, `acquire_image`, `wait_image`, `release_image`, `end`),
its `get_render_views`, and its `Drop` implementation.

Calls into the XR runtime (`xr::FrameStream::begin/end`,
`xr::Swapchain::acquire_image/wait_image/release_image`) are modelled as
oracle responses passed in as arguments, so that error propagation and the
arguments the code hands to the runtime are observable.  Rust machine
integers are modelled as `Nat`/`Int` with explicit wrapping where the source
performs an `as` cast.  Rust panics (out-of-bounds slice indexing) are
modelled explicitly rather than as undefined behaviour.
-/

namespace BevyOxr

/-- OpenXR result error code (`xr::Result` error values are raw `i32` codes). -/
abbrev XrErr := Int

/-- `xr::Time`: a signed 64-bit nanosecond timestamp. -/
abbrev XrTime := Int

/-- Handle id standing for an `xr::Space` reference-space handle. -/
abbrev Space := Nat

/-- Handle id standing for an `XrPassthroughLayer` (opaque passthrough handle). -/
abbrev PassthroughHandle := Nat

/-- `xr::EnvironmentBlendMode`: a raw enumeration value. -/
abbrev EnvironmentBlendMode := Nat

/-- `xr::Duration` is an `i64` nanosecond count; `xr::Duration::INFINITE`
is the special value `0x7fffffffffffffff`. -/
def XrDurationINFINITE : Int := 0x7fffffffffffffff

/-- Rust `x as i32` applied to a `u32` value `x` (bit reinterpretation):
values below `2^31` are unchanged, larger ones wrap to negatives. -/
def i32_of_u32 (x : Nat) : Int :=
  if x < 2 ^ 31 then (x : Int) else (x : Int) - 2 ^ 32

/-- `bevy::math::UVec2` (two `u32` components), used for the frame resolution. -/
structure UVec2 where
  x : Nat
  y : Nat
deriving DecidableEq

/-- `xr::Offset2Di` (two `i32` components). -/
structure Offset2Di where
  x : Int
  y : Int
deriving DecidableEq

/-- `xr::Extent2Di` (two `i32` components). -/
structure Extent2Di where
  width : Int
  height : Int
deriving DecidableEq

/-- `xr::Rect2Di`. -/
structure Rect2Di where
  offset : Offset2Di
  extent : Extent2Di
deriving DecidableEq

/-- `xr::Posef`: an orientation quaternion and a position vector.  The
lifecycle code never inspects the numeric values, it only copies them, so
components are carried abstractly as integers. -/
structure Posef where
  orientation : Int × Int × Int × Int
  position : Int × Int × Int
deriving DecidableEq

/-- `xr::Fovf`: four field-of-view angles. -/
structure Fovf where
  angleLeft : Int
  angleRight : Int
  angleUp : Int
  angleDown : Int
deriving DecidableEq

/-- `xr::View`: one pose + field-of-view pair per eye. -/
structure View where
  pose : Posef
  fov : Fovf
deriving DecidableEq

/-- `xr::SwapchainSubImage`: the swapchain handle, the image array index
(`u32`) and the image rectangle set by `SwapchainInner::end`. -/
structure SwapchainSubImage where
  swapchain : Nat
  imageArrayIndex : Nat
  imageRect : Rect2Di
deriving DecidableEq

/-- `xr::CompositionLayerProjectionView`: pose, fov and sub-image. -/
structure CompositionLayerProjectionView where
  pose : Posef
  fov : Fovf
  subImage : SwapchainSubImage
deriving DecidableEq

/-- `xr::CompositionLayerFlags` bitmask: the default (no flags). -/
def CompositionLayerFlagsEMPTY : Nat := 0

/-- `xr::CompositionLayerFlags::BLEND_TEXTURE_SOURCE_ALPHA` (bit 1 of the
OpenXR composition layer flag mask, value `0x2`). -/
def CompositionLayerFlagsBLEND_TEXTURE_SOURCE_ALPHA : Nat := 2

/-- A composition layer as submitted by `SwapchainInner::end`: either the
passthrough layer built by `CompositionLayerPassthrough::from_xr_passthrough_layer`
(carrying the opaque passthrough handle) or a projection layer with its
layer flags, space and per-eye projection views. -/
inductive CompositionLayer where
  | passthrough (handle : PassthroughHandle)
  | projection (layerFlags : Nat) (space : Space)
      (views : List CompositionLayerProjectionView)
deriving DecidableEq

/-- A `wgpu::Texture` held in `SwapchainInner::buffers`; the id stands for
the underlying driver-owned texture memory. -/
structure Texture where
  id : Nat
deriving DecidableEq

/-- `wgpu::TextureViewDimension` (only `D2` is used by the source). -/
inductive TextureViewDimension where
  | D1
  | D2
  | D3
deriving DecidableEq

/-- The fields of `wgpu::TextureViewDescriptor` that `get_render_views`
sets; unset fields keep `Default::default()` values (`None` / `0`). -/
structure TextureViewDescriptor where
  dimension : Option TextureViewDimension := none
  arrayLayerCount : Option Nat := none
  baseArrayLayer : Nat := 0
deriving DecidableEq

/-- A `wgpu::TextureView` produced by `Texture::create_view`. -/
structure TextureView where
  texture : Texture
  desc : TextureViewDescriptor
deriving DecidableEq

/-- `SwapchainInner<G>`: frame stream handle, swapchain handle, texture
buffers and the currently acquired image index (`usize`).  The `Mutex`
wrappers of the source are elided: every operation locks, uses and releases
the value within a single call, so the sequential model is the
single-threaded semantics of the source. -/
structure SwapchainInner where
  stream : Nat
  handle : Nat
  buffers : List Texture
  imageIndex : Nat
deriving DecidableEq

/-- `SwapchainInner::begin`: delegates to `self.stream.lock().unwrap().begin()`
and returns its result unchanged.  The runtime response is the oracle. -/
def SwapchainInner.begin (streamBegin : Except XrErr Unit) : Except XrErr Unit :=
  streamBegin

/-- `SwapchainInner::acquire_image`: calls the runtime acquire
(`self.handle.lock().unwrap().acquire_image()?`), propagating an error with
`?` before touching the stored index; on success stores the returned `u32`
index (cast `as usize`, value-preserving) and returns `Ok(())`. -/
def SwapchainInner.acquire_image (s : SwapchainInner) (resp : Except XrErr Nat) :
    Except XrErr Unit × SwapchainInner :=
  match resp with
  | .error e => (.error e, s)
  | .ok i => (.ok (), { s with imageIndex := i })

/-- The `WaitCall` record observes the single argument `wait_image` passes
to the runtime: the timeout duration. -/
structure WaitCall where
  duration : Int
deriving DecidableEq

/-- `SwapchainInner::wait_image`: calls
`self.handle.lock().unwrap().wait_image(xr::Duration::INFINITE)` and returns
its result.  The call record and the runtime response are both returned. -/
def SwapchainInner.wait_image (runtimeWait : Int → Except XrErr Unit) :
    WaitCall × Except XrErr Unit :=
  ({ duration := XrDurationINFINITE }, runtimeWait XrDurationINFINITE)

/-- `SwapchainInner::release_image`: delegates to
`self.handle.lock().unwrap().release_image()` unchanged. -/
def SwapchainInner.release_image (resp : Except XrErr Unit) : Except XrErr Unit :=
  resp

/-- `SwapchainInner::get_render_views`: indexes
`self.buffers[*self.image_index.lock().unwrap()]` (a panic if out of
bounds, modelled as `none`) and creates two 2D single-layer views over that
texture, at base array layers 0 and 1. -/
def SwapchainInner.get_render_views (s : SwapchainInner) :
    Option (TextureView × TextureView) :=
  match s.buffers[s.imageIndex]? with
  | none => none
  | some texture =>
    some
      ( { texture := texture,
          desc := { dimension := some .D2, arrayLayerCount := some 1 } },
        { texture := texture,
          desc := { dimension := some .D2, arrayLayerCount := some 1,
                    baseArrayLayer := 1 } } )

/-- The `rect` built at the top of `SwapchainInner::end`: origin `(0,0)`,
extent `(resolution.x as i32, resolution.y as i32)`. -/
def endRect (resolution : UVec2) : Rect2Di :=
  { offset := { x := 0, y := 0 },
    extent := { width := i32_of_u32 resolution.x,
                height := i32_of_u32 resolution.y } }

/-- The `make_view` closure of `SwapchainInner::end`: reads `views[i]`
(slice indexing, a panic when out of bounds, modelled as `none`) and builds
a projection view with image array index `i` and the shared rectangle. -/
def make_view (handle : Nat) (rect : Rect2Di) (views : List View) (i : Nat) :
    Option CompositionLayerProjectionView :=
  (views[i]?).map fun v =>
    { pose := v.pose, fov := v.fov,
      subImage := { swapchain := handle, imageArrayIndex := i, imageRect := rect } }

/-- Outcome of `SwapchainInner::end` before the frame-stream call:
`panicked` for an out-of-bounds `views[i]`, `okNoSubmit w` for the early
`return Ok(())` after `warn!(w)`, and `submitted layers` when
`stream.end` is called with the layer list. -/
inductive EndResult where
  | panicked
  | okNoSubmit (warning : String)
  | submitted (layers : List CompositionLayer)
deriving DecidableEq

/-- `SwapchainInner::end` (named `endFrame` since `end` is reserved in
Lean).  Faithful to the source: build `rect`; if `views.is_empty()` warn
and return success without submitting; otherwise evaluate
`[make_view(0), make_view(1)]` (reading `views[0]` and `views[1]`) and
submit `[Passthrough, Projection(BLEND_TEXTURE_SOURCE_ALPHA)]` when a
passthrough layer is supplied, else `[Projection]` with default flags. -/
def SwapchainInner.endFrame (s : SwapchainInner) (_predictedDisplayTime : XrTime)
    (views : List View) (stage : Space) (resolution : UVec2)
    (_environmentBlendMode : EnvironmentBlendMode)
    (passthroughLayer : Option PassthroughHandle) : EndResult :=
  let rect := endRect resolution
  if views.isEmpty then
    .okNoSubmit "views are len of 0"
  else
    match make_view s.handle rect views 0, make_view s.handle rect views 1 with
    | some v0, some v1 =>
      match passthroughLayer with
      | some pass =>
        .submitted
          [ .passthrough pass,
            .projection CompositionLayerFlagsBLEND_TEXTURE_SOURCE_ALPHA stage
              [v0, v1] ]
      | none =>
        .submitted
          [ .projection CompositionLayerFlagsEMPTY stage [v0, v1] ]
    | _, _ => .panicked

/-- The `xr::Result` value `SwapchainInner::end` returns, given the
frame-stream `end` oracle: `none` when the call panics, `Ok(())` on the
empty-views early return, and the oracle's verdict on the submitted layer
list otherwise. -/
def EndResult.toXrResult (streamEnd : List CompositionLayer → Except XrErr Unit) :
    EndResult → Option (Except XrErr Unit)
  | .panicked => none
  | .okNoSubmit _ => some (.ok ())
  | .submitted layers => some (streamEnd layers)

/-- `SwapchainInner::end` composed with the frame-stream submission. -/
def SwapchainInner.endXr (s : SwapchainInner)
    (streamEnd : List CompositionLayer → Except XrErr Unit) (t : XrTime)
    (views : List View) (stage : Space) (resolution : UVec2)
    (blend : EnvironmentBlendMode) (pass : Option PassthroughHandle) :
    Option (Except XrErr Unit) :=
  (s.endFrame t views stage resolution blend pass).toXrResult streamEnd

/-- A teardown event: a deallocation call on driver-owned texture memory. -/
inductive TeardownEvent where
  | freeTexture (id : Nat)
deriving DecidableEq

/-- The events the `wgpu::Texture` destructor would emit if it ran:
releasing the underlying (driver-owned) texture memory. -/
def Texture.dropEvents (t : Texture) : List TeardownEvent :=
  [.freeTexture t.id]

/-- `Box::leak(Box::new(v))`: the value is leaked, its destructor never
runs, so no teardown events are emitted. -/
def boxLeak (_t : Texture) : List TeardownEvent := []

/-- The loop body of `impl Drop for SwapchainInner`: iterate
`0..buffers.len()` times, each time `remove(0)` and leak the removed
texture.  (`remove(0)` on an already-empty vector would panic, but the
iteration count equals the initial length so that branch is unreachable.) -/
def dropLoop : Nat → List Texture → List TeardownEvent
  | 0, _ => []
  | _ + 1, [] => []
  | n + 1, t :: rest => boxLeak t ++ dropLoop n rest

/-- `impl Drop for SwapchainInner`: the teardown events emitted for the
texture buffers. -/
def SwapchainInner.dropEvents (s : SwapchainInner) : List TeardownEvent :=
  dropLoop s.buffers.length s.buffers

/-- One runtime-facing lifecycle call together with the runtime's response
to it (the oracle value the code would receive). -/
inductive LifecycleOp where
  | begin (resp : Except XrErr Unit)
  | acquire (resp : Except XrErr Nat)
  | wait (resp : Except XrErr Unit)
  | release (resp : Except XrErr Unit)

/-- Effect of one lifecycle call on the store: only a successful
`acquire_image` mutates it (it stores the returned index); `begin`,
`wait_image` and `release_image` only talk to the runtime. -/
def stepOp (s : SwapchainInner) : LifecycleOp → SwapchainInner
  | .acquire resp => (s.acquire_image resp).2
  | _ => s

/-- Run a sequence of lifecycle calls against the store. -/
def runOps (s : SwapchainInner) : List LifecycleOp → SwapchainInner
  | [] => s
  | op :: rest => runOps (stepOp s op) rest

/-- A sample view used for concrete evaluations. -/
def sampleView : View :=
  { pose := { orientation := (0, 0, 0, 1), position := (0, 0, 0) },
    fov := { angleLeft := -1, angleRight := 1, angleUp := 1, angleDown := -1 } }

/-- A second sample view, distinguishable from `sampleView`. -/
def sampleView2 : View :=
  { pose := { orientation := (0, 1, 0, 0), position := (1, 2, 3) },
    fov := { angleLeft := -2, angleRight := 2, angleUp := 2, angleDown := -2 } }

/-- A sample store with two texture buffers. -/
def sampleStore : SwapchainInner :=
  { stream := 10, handle := 11, buffers := [{ id := 0 }, { id := 1 }],
    imageIndex := 0 }

/-- The projection view `make_view i` builds when `views[i]` is in bounds
and holds view `v`: pose and fov copied from `v`, image array index `i`,
and the shared rectangle `endRect res`. -/
def builtView (s : SwapchainInner) (res : UVec2) (v : View) (i : Nat) :
    CompositionLayerProjectionView :=
  { pose := v.pose, fov := v.fov,
    subImage := { swapchain := s.handle, imageArrayIndex := i,
                  imageRect := endRect res } }

/-- Evaluation of `endFrame` on a views slice with at least two elements:
both branches of the passthrough match submit, and the projection layer
holds exactly the two views built from `views[0]` and `views[1]`. -/
theorem endFrame_cons_cons (s : SwapchainInner) (t : XrTime) (v0 v1 : View)
    (rest : List View) (stage : Space) (res : UVec2)
    (blend : EnvironmentBlendMode) :
    (∀ p, s.endFrame t (v0 :: v1 :: rest) stage res blend (some p) =
      .submitted
        [ .passthrough p,
          .projection CompositionLayerFlagsBLEND_TEXTURE_SOURCE_ALPHA stage
            [builtView s res v0 0, builtView s res v1 1] ]) ∧
    s.endFrame t (v0 :: v1 :: rest) stage res blend none =
      .submitted
        [ .projection CompositionLayerFlagsEMPTY stage
            [builtView s res v0 0, builtView s res v1 1] ] := by
  constructor
  · intro p
    simp [SwapchainInner.endFrame, make_view, builtView]
  · simp [SwapchainInner.endFrame, make_view, builtView]

/-- `endFrame` on a singleton views slice panics (out-of-bounds `views[1]`). -/
theorem endFrame_singleton (s : SwapchainInner) (t : XrTime) (v : View)
    (stage : Space) (res : UVec2) (blend : EnvironmentBlendMode)
    (pass : Option PassthroughHandle) :
    s.endFrame t [v] stage res blend pass = .panicked := by
  simp [SwapchainInner.endFrame, make_view]

/-- When the horizontal and vertical resolutions fit in `i32`, the `i32`
casts in `endRect` are value-preserving. -/
theorem endRect_eq_of_lt (res : UVec2) (hx : res.x < 2 ^ 31) (hy : res.y < 2 ^ 31) :
    endRect res =
      { offset := { x := 0, y := 0 },
        extent := { width := (res.x : Int), height := (res.y : Int) } } := by
  simp only [endRect, i32_of_u32, if_pos hx, if_pos hy]

/-- The teardown loop never emits an event: every iteration leaks the
removed texture instead of running its destructor. -/
theorem dropLoop_eq_nil : ∀ (n : Nat) (bufs : List Texture), dropLoop n bufs = [] := by
  intro n
  induction n with
  | zero => intro bufs; rfl
  | succ n ih =>
    intro bufs
    cases bufs with
    | nil => rfl
    | cons t rest => simp [dropLoop, boxLeak, ih]

/-- C6: dropping the swapchain image store never invokes a deallocation
call on the foreign-owned texture memory: for every store, the `Drop`
implementation leaks each texture wrapper (emitting no teardown events at
all), so no `freeTexture` call occurs for any buffer. -/
theorem drop_no_free_calls (s : SwapchainInner) :
    s.dropEvents = [] ∧ ∀ i, TeardownEvent.freeTexture i ∉ s.dropEvents := by
  have h : s.dropEvents = [] := dropLoop_eq_nil _ _
  exact ⟨h, by simp [h]⟩

/-- C8: `wait_image` always passes the infinite duration
(`xr::Duration::INFINITE = 0x7fffffffffffffff` nanoseconds) to the
runtime's image-wait, for every invocation. -/
theorem wait_image_infinite_duration (runtimeWait : Int → Except XrErr Unit) :
    (SwapchainInner.wait_image runtimeWait).1.duration = XrDurationINFINITE ∧
    (SwapchainInner.wait_image runtimeWait).2 = runtimeWait XrDurationINFINITE ∧
    XrDurationINFINITE = 0x7fffffffffffffff :=
  ⟨rfl, rfl, rfl⟩

/-- C10: `acquire_image` is atomic with respect to the stored image index:
a runtime error is propagated with the store unchanged, and on success the
index is set to exactly the index the runtime returned. -/
theorem acquire_image_atomic (s : SwapchainInner) (e : XrErr) (i : Nat) :
    s.acquire_image (.error e) = (.error e, s) ∧
    s.acquire_image (.ok i) = (.ok (), { s with imageIndex := i }) :=
  ⟨rfl, rfl⟩

/-- C7: every lifecycle operation returns a result type and propagates a
runtime error unchanged: `begin`, `acquire_image`, `wait_image`,
`release_image` and `end` (on any submitting call, i.e. any call with at
least two views) all surface the runtime's error verbatim; the only
swallowed case is the empty-views early return of `end`, which succeeds
without consulting the frame stream. -/
theorem runtime_error_propagation (s : SwapchainInner) (e : XrErr) (t : XrTime)
    (stage : Space) (res : UVec2) (blend : EnvironmentBlendMode)
    (pass : Option PassthroughHandle) (v0 v1 : View) (rest : List View) :
    SwapchainInner.begin (.error e) = .error e ∧
    (s.acquire_image (.error e)).1 = .error e ∧
    (SwapchainInner.wait_image fun _ => .error e).2 = .error e ∧
    SwapchainInner.release_image (.error e) = .error e ∧
    s.endXr (fun _ => .error e) t (v0 :: v1 :: rest) stage res blend pass
      = some (.error e) ∧
    s.endXr (fun _ => .error e) t [] stage res blend pass = some (.ok ()) := by
  refine ⟨rfl, rfl, rfl, rfl, ?_, rfl⟩
  cases pass <;>
    simp [SwapchainInner.endXr, SwapchainInner.endFrame, make_view,
      EndResult.toXrResult]

/-- C1: `end` returns success without submitting any layer (the
`okNoSubmit` outcome, after logging the warning) exactly when the views
slice is empty — the empty slice is the only input on which the frame's
visual output is silently dropped — and on the empty slice the returned
`xr::Result` is `Ok`. -/
theorem end_empty_views_ok_no_submit (s : SwapchainInner)
    (streamEnd : List CompositionLayer → Except XrErr Unit) (t : XrTime)
    (views : List View) (stage : Space) (res : UVec2)
    (blend : EnvironmentBlendMode) (pass : Option PassthroughHandle) :
    (s.endFrame t views stage res blend pass = .okNoSubmit "views are len of 0"
      ↔ views = []) ∧
    s.endXr streamEnd t [] stage res blend pass = some (.ok ()) := by
  refine ⟨⟨?_, ?_⟩, rfl⟩
  · intro h
    cases views with
    | nil => rfl
    | cons v restv =>
      cases restv with
      | nil => simp [SwapchainInner.endFrame, make_view] at h
      | cons v1 restv2 =>
        cases pass <;> simp [SwapchainInner.endFrame, make_view] at h
  · intro h
    subst h
    rfl

/-- C2 counterexample: the claim fails as stated — a views slice of length
one is non-empty, yet `end` panics on the out-of-bounds read of `views[1]`
instead of building two in-bounds projection sub-images. -/
theorem end_single_view_panics :
    ([sampleView] ≠ ([] : List View)) ∧
    sampleStore.endFrame 0 [sampleView] 0 ⟨1024, 1024⟩ 0 none
      = EndResult.panicked :=
  ⟨by simp, endFrame_singleton sampleStore 0 sampleView 0 ⟨1024, 1024⟩ 0 none⟩

/-- C2 amended: for every call to `end` whose views slice has length at
least 2, the reads of `views[0]` and `views[1]` are in bounds and the call
submits a layer list containing a projection layer with exactly the two
sub-images built from them, at image array indices 0 and 1. -/
theorem end_two_views_in_bounds (s : SwapchainInner) (t : XrTime)
    (views : List View) (stage : Space) (res : UVec2)
    (blend : EnvironmentBlendMode) (pass : Option PassthroughHandle)
    (h : 2 ≤ views.length) :
    ∃ v0 v1, views[0]? = some v0 ∧ views[1]? = some v1 ∧
      ∃ L flags, s.endFrame t views stage res blend pass = .submitted L ∧
        CompositionLayer.projection flags stage
          [builtView s res v0 0, builtView s res v1 1] ∈ L := by
  match views, h with
  | v0 :: v1 :: rest, _ =>
    refine ⟨v0, v1, by simp, by simp, ?_⟩
    cases pass with
    | some p =>
      exact ⟨_, CompositionLayerFlagsBLEND_TEXTURE_SOURCE_ALPHA,
        (endFrame_cons_cons s t v0 v1 rest stage res blend).1 p, by simp⟩
    | none =>
      exact ⟨_, CompositionLayerFlagsEMPTY,
        (endFrame_cons_cons s t v0 v1 rest stage res blend).2, by simp⟩

/-- Witness for C2 amended at a concrete two-view call. -/
theorem end_two_views_in_bounds_witness :
    ∃ v0 v1, ([sampleView, sampleView2] : List View)[0]? = some v0 ∧
      ([sampleView, sampleView2] : List View)[1]? = some v1 ∧
      ∃ L flags,
        sampleStore.endFrame 0 [sampleView, sampleView2] 0 ⟨1024, 1024⟩ 0 none
          = .submitted L ∧
        CompositionLayer.projection flags 0
          [builtView sampleStore ⟨1024, 1024⟩ v0 0,
           builtView sampleStore ⟨1024, 1024⟩ v1 1] ∈ L :=
  end_two_views_in_bounds sampleStore 0 [sampleView, sampleView2] 0
    ⟨1024, 1024⟩ 0 none (by decide)

/-- C3: whenever `end` submits a layer list (in particular for every
non-empty views slice on which it submits), the projection layer is the
last element; with a passthrough layer supplied the list is exactly
`[Passthrough, Projection]`, and without one it is exactly `[Projection]`. -/
theorem end_layer_order (s : SwapchainInner) (t : XrTime) (views : List View)
    (stage : Space) (res : UVec2) (blend : EnvironmentBlendMode)
    (pass : Option PassthroughHandle) (L : List CompositionLayer)
    (hne : views ≠ [])
    (hL : s.endFrame t views stage res blend pass = .submitted L) :
    (∃ flags pvs, L.getLast? = some (.projection flags stage pvs)) ∧
    (∀ p, pass = some p →
      ∃ flags pvs, L = [.passthrough p, .projection flags stage pvs]) ∧
    (pass = none → ∃ flags pvs, L = [.projection flags stage pvs]) := by
  cases views with
  | nil => exact absurd rfl hne
  | cons v0 restv =>
    cases restv with
    | nil => rw [endFrame_singleton] at hL; exact absurd hL (by simp)
    | cons v1 restv2 =>
      cases pass with
      | some p =>
        rw [(endFrame_cons_cons s t v0 v1 restv2 stage res blend).1 p] at hL
        injection hL with h3
        subst h3
        refine ⟨⟨CompositionLayerFlagsBLEND_TEXTURE_SOURCE_ALPHA,
          [builtView s res v0 0, builtView s res v1 1], rfl⟩, ?_, by simp⟩
        intro p2 hp2
        injection hp2 with hp3
        subst hp3
        exact ⟨_, _, rfl⟩
      | none =>
        rw [(endFrame_cons_cons s t v0 v1 restv2 stage res blend).2] at hL
        injection hL with h3
        subst h3
        exact ⟨⟨CompositionLayerFlagsEMPTY,
          [builtView s res v0 0, builtView s res v1 1], rfl⟩, by simp,
          fun _ => ⟨_, _, rfl⟩⟩

/-- Witness for C3 at a concrete two-view call with a passthrough layer. -/
theorem end_layer_order_witness :
    (∃ flags pvs,
      ([ CompositionLayer.passthrough 7,
         CompositionLayer.projection CompositionLayerFlagsBLEND_TEXTURE_SOURCE_ALPHA 0
           [builtView sampleStore ⟨1024, 1024⟩ sampleView 0,
            builtView sampleStore ⟨1024, 1024⟩ sampleView2 1] ]
        : List CompositionLayer).getLast?
        = some (.projection flags 0 pvs)) ∧
    (∀ p, (some 7 : Option PassthroughHandle) = some p →
      ∃ flags pvs,
        ([ CompositionLayer.passthrough 7,
           CompositionLayer.projection CompositionLayerFlagsBLEND_TEXTURE_SOURCE_ALPHA 0
             [builtView sampleStore ⟨1024, 1024⟩ sampleView 0,
              builtView sampleStore ⟨1024, 1024⟩ sampleView2 1] ]
          : List CompositionLayer)
          = [.passthrough p, .projection flags 0 pvs]) ∧
    ((some 7 : Option PassthroughHandle) = none →
      ∃ flags pvs,
        ([ CompositionLayer.passthrough 7,
           CompositionLayer.projection CompositionLayerFlagsBLEND_TEXTURE_SOURCE_ALPHA 0
             [builtView sampleStore ⟨1024, 1024⟩ sampleView 0,
              builtView sampleStore ⟨1024, 1024⟩ sampleView2 1] ]
          : List CompositionLayer)
          = [.projection flags 0 pvs]) :=
  end_layer_order sampleStore 0 [sampleView, sampleView2] 0 ⟨1024, 1024⟩ 0
    (some 7) _ (by simp) rfl

/-- C4 counterexample: at resolution `(2^31, 2^31)` the `u32 → i32` casts
in the sub-image rectangle wrap, so the extent stored in the submitted
projection views is `(-2^31, -2^31)`, not `(R.x, R.y)` as claimed. -/
theorem end_resolution_overflow_cex :
    sampleStore.endFrame 0 [sampleView, sampleView2] 0 ⟨2 ^ 31, 2 ^ 31⟩ 0 none
      = .submitted
          [ .projection CompositionLayerFlagsEMPTY 0
              [builtView sampleStore ⟨2 ^ 31, 2 ^ 31⟩ sampleView 0,
               builtView sampleStore ⟨2 ^ 31, 2 ^ 31⟩ sampleView2 1] ] ∧
    (builtView sampleStore ⟨2 ^ 31, 2 ^ 31⟩ sampleView 0).subImage.imageRect.extent.width
      = -(2 ^ 31) ∧
    (builtView sampleStore ⟨2 ^ 31, 2 ^ 31⟩ sampleView 0).subImage.imageRect
      ≠ { offset := { x := 0, y := 0 },
          extent := { width := ((2 ^ 31 : Nat) : Int),
                      height := ((2 ^ 31 : Nat) : Int) } } :=
  ⟨(endFrame_cons_cons sampleStore 0 sampleView sampleView2 [] 0
      ⟨2 ^ 31, 2 ^ 31⟩ 0).2, by decide, by decide⟩

/-- C4 amended: for every resolution whose components are below `2^31`,
every projection view of every layer list `end` submits carries the
sub-image rectangle `{offset (0,0), extent (R.x, R.y)}`; since this holds
for every projection view, the rectangle is identical for both eyes. -/
theorem end_subimage_rect (s : SwapchainInner) (t : XrTime) (views : List View)
    (stage sp : Space) (res : UVec2) (blend : EnvironmentBlendMode)
    (pass : Option PassthroughHandle) (L : List CompositionLayer)
    (flags : Nat) (pvs : List CompositionLayerProjectionView)
    (pv : CompositionLayerProjectionView)
    (hx : res.x < 2 ^ 31) (hy : res.y < 2 ^ 31)
    (hL : s.endFrame t views stage res blend pass = .submitted L)
    (hproj : CompositionLayer.projection flags sp pvs ∈ L)
    (hpv : pv ∈ pvs) :
    pv.subImage.imageRect =
      { offset := { x := 0, y := 0 },
        extent := { width := (res.x : Int), height := (res.y : Int) } } := by
  cases views with
  | nil => simp [SwapchainInner.endFrame] at hL
  | cons v0 restv =>
    cases restv with
    | nil => rw [endFrame_singleton] at hL; exact absurd hL (by simp)
    | cons v1 restv2 =>
      have hrect : ∀ v : View, ∀ i : Nat,
          (builtView s res v i).subImage.imageRect =
            { offset := { x := 0, y := 0 },
              extent := { width := (res.x : Int), height := (res.y : Int) } } := by
        intro v i
        rw [show (builtView s res v i).subImage.imageRect = endRect res from rfl]
        exact endRect_eq_of_lt res hx hy
      cases pass with
      | some p =>
        rw [(endFrame_cons_cons s t v0 v1 restv2 stage res blend).1 p] at hL
        injection hL with h3
        subst h3
        simp only [List.mem_cons, List.mem_singleton] at hproj
        rcases hproj with h | h | h
        · exact absurd h (by simp)
        · obtain ⟨-, -, rfl⟩ := CompositionLayer.projection.inj h
          simp only [List.mem_cons, List.not_mem_nil, or_false] at hpv
          rcases hpv with rfl | rfl
          · exact hrect v0 0
          · exact hrect v1 1
        · exact absurd h (List.not_mem_nil _)
      | none =>
        rw [(endFrame_cons_cons s t v0 v1 restv2 stage res blend).2] at hL
        injection hL with h3
        subst h3
        simp only [List.mem_singleton] at hproj
        obtain ⟨-, -, rfl⟩ := CompositionLayer.projection.inj hproj
        simp only [List.mem_cons, List.not_mem_nil, or_false] at hpv
        rcases hpv with rfl | rfl
        · exact hrect v0 0
        · exact hrect v1 1

/-- Witness for C4 amended at resolution `(1024, 768)`. -/
theorem end_subimage_rect_witness :
    (builtView sampleStore ⟨1024, 768⟩ sampleView 0).subImage.imageRect =
      { offset := { x := 0, y := 0 },
        extent := { width := (1024 : Int), height := (768 : Int) } } :=
  end_subimage_rect sampleStore 0 [sampleView, sampleView2] 0 0 ⟨1024, 768⟩ 0
    none _ CompositionLayerFlagsEMPTY
    [builtView sampleStore ⟨1024, 768⟩ sampleView 0,
     builtView sampleStore ⟨1024, 768⟩ sampleView2 1]
    (builtView sampleStore ⟨1024, 768⟩ sampleView 0)
    (by decide) (by decide)
    ((endFrame_cons_cons sampleStore 0 sampleView sampleView2 [] 0
      ⟨1024, 768⟩ 0).2)
    (by simp) (by simp)

/-- C9: in every layer list `end` submits, the projection layer carries the
`BLEND_TEXTURE_SOURCE_ALPHA` flag exactly when a passthrough layer is
supplied, and carries no flags when none is. -/
theorem projection_blend_flag_iff_passthrough (s : SwapchainInner) (t : XrTime)
    (views : List View) (stage sp : Space) (res : UVec2)
    (blend : EnvironmentBlendMode) (pass : Option PassthroughHandle)
    (L : List CompositionLayer) (flags : Nat)
    (pvs : List CompositionLayerProjectionView)
    (hL : s.endFrame t views stage res blend pass = .submitted L)
    (hproj : CompositionLayer.projection flags sp pvs ∈ L) :
    (flags = CompositionLayerFlagsBLEND_TEXTURE_SOURCE_ALPHA ↔ pass.isSome) ∧
    (pass = none → flags = CompositionLayerFlagsEMPTY) := by
  cases views with
  | nil => simp [SwapchainInner.endFrame] at hL
  | cons v0 restv =>
    cases restv with
    | nil => rw [endFrame_singleton] at hL; exact absurd hL (by simp)
    | cons v1 restv2 =>
      cases pass with
      | some p =>
        rw [(endFrame_cons_cons s t v0 v1 restv2 stage res blend).1 p] at hL
        injection hL with h3
        subst h3
        simp only [List.mem_cons, List.mem_singleton] at hproj
        rcases hproj with h | h | h
        · exact absurd h (by simp)
        · obtain ⟨rfl, -, -⟩ := CompositionLayer.projection.inj h
          exact ⟨by simp, by simp⟩
        · exact absurd h (List.not_mem_nil _)
      | none =>
        rw [(endFrame_cons_cons s t v0 v1 restv2 stage res blend).2] at hL
        injection hL with h3
        subst h3
        simp only [List.mem_singleton] at hproj
        obtain ⟨rfl, -, -⟩ := CompositionLayer.projection.inj hproj
        exact ⟨by simp [CompositionLayerFlagsEMPTY,
          CompositionLayerFlagsBLEND_TEXTURE_SOURCE_ALPHA], fun _ => rfl⟩

/-- Witness for C9 at a concrete call with a passthrough layer. -/
theorem projection_blend_flag_iff_passthrough_witness :
    (CompositionLayerFlagsBLEND_TEXTURE_SOURCE_ALPHA
        = CompositionLayerFlagsBLEND_TEXTURE_SOURCE_ALPHA
      ↔ (some 7 : Option PassthroughHandle).isSome) ∧
    ((some 7 : Option PassthroughHandle) = none →
      CompositionLayerFlagsBLEND_TEXTURE_SOURCE_ALPHA = CompositionLayerFlagsEMPTY) :=
  projection_blend_flag_iff_passthrough sampleStore 0 [sampleView, sampleView2]
    0 0 ⟨1024, 1024⟩ 0 (some 7) _
    CompositionLayerFlagsBLEND_TEXTURE_SOURCE_ALPHA
    [builtView sampleStore ⟨1024, 1024⟩ sampleView 0,
     builtView sampleStore ⟨1024, 1024⟩ sampleView2 1]
    ((endFrame_cons_cons sampleStore 0 sampleView sampleView2 [] 0
      ⟨1024, 1024⟩ 0).1 7)
    (by simp)

/-- No lifecycle call changes the texture buffer sequence. -/
theorem stepOp_buffers (s : SwapchainInner) (op : LifecycleOp) :
    (stepOp s op).buffers = s.buffers := by
  cases op with
  | acquire resp => cases resp <;> rfl
  | begin resp => rfl
  | wait resp => rfl
  | release resp => rfl

/-- Running any sequence of lifecycle calls leaves the buffers unchanged. -/
theorem runOps_buffers (ops : List LifecycleOp) : ∀ s : SwapchainInner,
    (runOps s ops).buffers = s.buffers := by
  induction ops with
  | nil => intro s; rfl
  | cons op rest ih =>
    intro s
    rw [runOps, ih, stepOp_buffers]

/-- A sequence containing no successful acquire leaves the stored image
index unchanged: `begin`, `wait` and `release` never touch it, and a failed
acquire propagates its error before the store is written. -/
theorem runOps_index_no_acquire (ops : List LifecycleOp) : ∀ s : SwapchainInner,
    (∀ i, LifecycleOp.acquire (.ok i) ∉ ops) →
    (runOps s ops).imageIndex = s.imageIndex := by
  induction ops with
  | nil => intro s _; rfl
  | cons op rest ih =>
    intro s h
    have hrest : ∀ i, LifecycleOp.acquire (.ok i) ∉ rest := by
      intro i hi
      exact h i (List.mem_cons_of_mem _ hi)
    rw [runOps, ih _ hrest]
    cases op with
    | acquire resp =>
      cases resp with
      | error e => rfl
      | ok i => exact absurd (List.mem_cons_self _ _) (h i)
    | begin resp => rfl
    | wait resp => rfl
    | release resp => rfl

/-- After any lifecycle sequence containing a successful acquire whose
runtime responses are all in bounds, the stored image index is in bounds. -/
theorem runOps_index_lt (ops : List LifecycleOp) : ∀ s : SwapchainInner,
    (∀ i, LifecycleOp.acquire (.ok i) ∈ ops → i < s.buffers.length) →
    (∃ i, LifecycleOp.acquire (.ok i) ∈ ops) →
    (runOps s ops).imageIndex < (runOps s ops).buffers.length := by
  induction ops with
  | nil =>
    intro s _ hacq
    obtain ⟨i, hi⟩ := hacq
    exact absurd hi (List.not_mem_nil _)
  | cons op rest ih =>
    intro s hconf hacq
    by_cases hr : ∃ i, LifecycleOp.acquire (.ok i) ∈ rest
    · refine ih (stepOp s op) ?_ hr
      intro i hi
      rw [stepOp_buffers]
      exact hconf i (List.mem_cons_of_mem _ hi)
    · obtain ⟨i, hi⟩ := hacq
      rcases List.mem_cons.mp hi with heq | hmem
      · push_neg at hr
        rw [runOps, runOps_index_no_acquire rest _ hr, runOps_buffers]
        rw [← heq]
        show ({ s with imageIndex := i } : SwapchainInner).imageIndex
          < (stepOp s (.acquire (.ok i))).buffers.length
        rw [stepOp_buffers]
        exact hconf i hi
      · exact absurd ⟨i, hmem⟩ hr

/-- When the stored index is in bounds, `get_render_views` succeeds (its
slice indexing does not panic). -/
theorem get_render_views_isSome (s : SwapchainInner)
    (h : s.imageIndex < s.buffers.length) : (s.get_render_views).isSome := by
  unfold SwapchainInner.get_render_views
  rw [List.getElem?_eq_getElem h]
  rfl

/-- C5: for every lifecycle sequence whose successful acquires return
in-bounds indices (the runtime conformance that defines a valid sequence)
and which contains at least one successful acquire, the stored image index
is a valid position in the texture sequence, so the indexing in
`get_render_views` is in bounds. -/
theorem acquired_image_index_in_bounds (s : SwapchainInner)
    (ops : List LifecycleOp)
    (hconf : ∀ i, LifecycleOp.acquire (.ok i) ∈ ops → i < s.buffers.length)
    (hacq : ∃ i, LifecycleOp.acquire (.ok i) ∈ ops) :
    (runOps s ops).imageIndex < (runOps s ops).buffers.length ∧
    ((runOps s ops).get_render_views).isSome :=
  have h := runOps_index_lt ops s hconf hacq
  ⟨h, get_render_views_isSome _ h⟩

/-- A sample lifecycle sequence: begin, acquire (runtime returns index 1),
wait, release. -/
def sampleOps : List LifecycleOp :=
  [.begin (.ok ()), .acquire (.ok 1), .wait (.ok ()), .release (.ok ())]

/-- Witness for C5 on `sampleOps` against the two-buffer `sampleStore`. -/
theorem acquired_image_index_in_bounds_witness :
    (runOps sampleStore sampleOps).imageIndex
      < (runOps sampleStore sampleOps).buffers.length ∧
    ((runOps sampleStore sampleOps).get_render_views).isSome := by
  have hconf : ∀ i, LifecycleOp.acquire (.ok i) ∈ sampleOps →
      i < sampleStore.buffers.length := by
    intro i hi
    simp [sampleOps] at hi
    subst hi
    decide
  exact acquired_image_index_in_bounds sampleStore sampleOps hconf
    ⟨1, by simp [sampleOps]⟩

end BevyOxr
